import Mathlib

/-!
Verification of the face-tracking AR example (src/index.ts) against its
specification. The single source file wires external Zappar/THREE components
into a render loop; we embed the module-level control flow and the render
loop faithfully, and model the external library calls that the spec
contracts describe (marked `Modelled from the spec:`).
-/

/-- A tracked 3D point (one LandmarkSet element). Coordinates are integers in
the model; the deformer copies them verbatim, so the claims do not depend on
the numeric representation. -/
structure Vec3 where
  x : Int
  y : Int
  z : Int
deriving DecidableEq

/-- LandmarkSet: ordered sequence of 3D points published by the face tracker. -/
abbrev LandmarkSet := List Vec3

/-- OverlayGeometry: the faceBufferGeometry. Vertex positions are rewritten
each frame; triangle indices and UVs are topology fixed at load time. -/
structure OverlayGeometry where
  positions : List Vec3
  indices : List Nat
  uvs : List (Int × Int)
deriving DecidableEq

/-- Modelled from the spec: `faceBufferGeometry.updateFromFaceAnchorGroup`
(src/index.ts line 173) is implemented in the external
`@zappar/zappar-threejs` package, not in this repository. Section 4.2 of the
spec gives its contract: for each index i the vertex position is written
directly from the landmark's 3D coordinate, a 1:1 copy with no smoothing;
topology and UVs are untouched. -/
def updateFromFaceAnchorGroup (g : OverlayGeometry) (lm : LandmarkSet) : OverlayGeometry :=
  { g with positions := lm }

/-- The four observable actions of one `render` call (src/index.ts 167-181). -/
inductive TickStep where
  | updateFrame
  | deform
  | draw
  | scheduleNext
deriving DecidableEq

/-- One frame drawn into the composite surface: the geometry at draw time and
whether the face-anchor group (the overlay root) was visible. -/
structure DrawnFrame where
  geometry : OverlayGeometry
  overlayVisible : Bool
deriving DecidableEq

/-- The mutable state the render loop touches. `providerLatest` is the most
recent complete sample published by the external tracking provider;
`trackedLandmarks` is the snapshot fixed for the current tick by
`camera.updateFrame`; `overlayVisible` is `faceTrackerGroup.visible`;
`faceVisible` is the tracker's own visibility state; `trace` records the
actions performed, in order. -/
structure AppState where
  camFrames : Nat
  providerLatest : LandmarkSet
  trackedLandmarks : LandmarkSet
  geometry : OverlayGeometry
  overlayVisible : Bool
  faceVisible : Bool
  drawnFrames : List DrawnFrame
  rafScheduled : Nat
  trace : List TickStep
deriving DecidableEq

/-- `camera.updateFrame(renderer)` (src/index.ts line 169): advances the
camera frame and fixes the tick's tracking snapshot as the provider's latest
complete sample (contract of the external ZapparThree camera, spec 4.1/6). -/
def updateFrame (s : AppState) : AppState :=
  { s with camFrames := s.camFrames + 1,
           trackedLandmarks := s.providerLatest,
           trace := s.trace ++ [ TickStep.updateFrame ] }

/-- Line 173 of src/index.ts: rewrite the face geometry from the tick's
tracking snapshot. The render loop performs this unconditionally; there is no
visibility test around it in the source. -/
def deformGeometry (s : AppState) : AppState :=
  { s with geometry := updateFromFaceAnchorGroup s.geometry s.trackedLandmarks,
           trace := s.trace ++ [ TickStep.deform ] }

/-- `renderer.render(scene, camera)` (src/index.ts line 177): draw the full
scene into the composite surface. The model records the geometry and the
overlay-root visibility that the draw used. -/
def rendererRender (s : AppState) : AppState :=
  { s with drawnFrames := s.drawnFrames ++
             [ { geometry := s.geometry, overlayVisible := s.overlayVisible } ],
           trace := s.trace ++ [ TickStep.draw ] }

/-- `requestAnimationFrame(render)` (src/index.ts line 180): schedule the next
tick via the platform's next-repaint notification. -/
def requestAnimationFrame (s : AppState) : AppState :=
  { s with rafScheduled := s.rafScheduled + 1,
           trace := s.trace ++ [ TickStep.scheduleNext ] }

/-- The `render` function (src/index.ts lines 167-181), translated statement
by statement: updateFrame, then geometry update, then scene draw, then
requestAnimationFrame. -/
def render (s : AppState) : AppState :=
  requestAnimationFrame (rendererRender (deformGeometry (updateFrame s)))

/-- n consecutive ticks of the render loop. -/
def iterRender : Nat → AppState → AppState
  | 0, s => s
  | n + 1, s => iterRender n (render s)

/-- Geometry as constructed at startup (src/index.ts line 99): no vertex
positions written yet; topology and UVs come from the loaded face-mesh asset
(external content, empty in the model since no claim depends on it). -/
def initialGeometry : OverlayGeometry :=
  { positions := [], indices := [], uvs := [] }

/-- App state right after the synchronous setup of src/index.ts lines 31-164,
immediately before the `render()` call at line 184: no camera frame ingested,
no tracking sample published, and the face-anchor group visible. THREE
objects are created with visible = true by default, and the line that would
set `faceTrackerGroup.visible = false` is commented out (line 72); no other
startup code writes the flag. -/
def initialAppState : AppState :=
  { camFrames := 0, providerLatest := [], trackedLandmarks := [],
    geometry := initialGeometry, overlayVisible := true, faceVisible := false,
    drawnFrames := [], rafScheduled := 0, trace := [] }

/-- Objects added to the THREE scene at startup (src/index.ts lines 69, 118,
122). -/
def sceneChildren : List String :=
  [ "faceTrackerGroup", "directionalLight", "ambientLight" ]

/-- Objects added to faceTrackerGroup at startup (src/index.ts line 112; the
helmet model and head-mask additions at lines 71-93 are commented out). -/
def faceTrackerGroupChildren : List String :=
  [ "faceMeshMesh" ]

/-- Face-tracker visibility transition events (spec: FaceVisibility). -/
inductive VisibilityEvent where
  | becameVisible
  | becameNotVisible
deriving DecidableEq

/-- Callback bound at src/index.ts line 125: on visible, set
`faceTrackerGroup.visible = true`. -/
def onVisibleCallback (s : AppState) : AppState :=
  { s with overlayVisible := true, faceVisible := true }

/-- Callback bound at src/index.ts line 126: on not visible, set
`faceTrackerGroup.visible = false`. -/
def onNotVisibleCallback (s : AppState) : AppState :=
  { s with overlayVisible := false, faceVisible := false }

/-- The Visibility Gate dispatch: each event immediately invokes the callback
bound to it (lines 125-126); there is no debouncing in the source. -/
def applyVisibilityEvent (s : AppState) : VisibilityEvent → AppState
  | VisibilityEvent.becameVisible => onVisibleCallback s
  | VisibilityEvent.becameNotVisible => onNotVisibleCallback s

/-- Fire a sequence of visibility events back to back (no intervening tick). -/
def runVisibilityEvents (s : AppState) (evs : List VisibilityEvent) : AppState :=
  evs.foldl applyVisibilityEvent s

/-- The overlay visibility an event dictates (the spec's last-event-wins
reading). -/
def eventValue : VisibilityEvent → Bool
  | VisibilityEvent.becameVisible => true
  | VisibilityEvent.becameNotVisible => false

/-- Camera-control state touched by the permission flow. -/
structure CameraCtl where
  started : Bool
  deniedUIShown : Bool
deriving DecidableEq

def initialCameraCtl : CameraCtl :=
  { started := false, deniedUIShown := false }

/-- The permission promise callback (src/index.ts lines 49-54): if granted,
`camera.start(true)`; otherwise show the permission-denied UI. Nothing else
happens in either branch. -/
def permissionCallback (granted : Bool) (c : CameraCtl) : CameraCtl :=
  if granted then { c with started := true } else { c with deniedUIShown := true }

/-- Outcome of evaluating the module's top-level code. -/
structure Startup where
  incompatibleUIShown : Bool
  threw : Bool
  setupPerformed : Bool
  loopState : Option AppState
deriving DecidableEq

/-- Module evaluation (src/index.ts top level). If the browser is
incompatible, the full-page incompatibility UI is shown and an exception is
thrown at line 25, before the renderer, scene, camera, tracker, recorder or
render loop are set up. Otherwise all setup runs and `render()` is invoked
once, synchronously, at line 184. -/
def moduleEval (compatible : Bool) : Startup :=
  if compatible then
    { incompatibleUIShown := false, threw := false, setupPerformed := true,
      loopState := some (render initialAppState) }
  else
    { incompatibleUIShown := true, threw := true, setupPerformed := false,
      loopState := none }

def isDraw : TickStep → Bool
  | TickStep.draw => true
  | _ => false

/-- Number of render-loop ticks executed so far: draw steps in the loop
trace, zero when the loop never started. -/
def Startup.ticksRun (st : Startup) : Nat :=
  match st.loopState with
  | none => 0
  | some s => (s.trace.filter isDraw).length

structure SystemState where
  startup : Startup
  cameraCtl : CameraCtl
deriving DecidableEq

/-- Full startup scenario: module evaluation, then (in a compatible browser)
the permission promise resolves with `granted`. A JS promise callback runs
only after the current synchronous execution has finished, so the callback
registered at line 49 runs strictly after the `render()` call at line 184; in
an incompatible browser the exception at line 25 means the permission request
is never made. -/
def startupScenario (compatible granted : Bool) : SystemState :=
  if compatible then
    { startup := moduleEval true,
      cameraCtl := permissionCallback granted initialCameraCtl }
  else
    { startup := moduleEval false, cameraCtl := initialCameraCtl }

/-- Events the recorder emits to its bound callbacks. -/
inductive RecEvent where
  | onStartEv
  | onCompleteEv
deriving DecidableEq

/-- State of the recorder subsystem built by `initRecorder` (src/index.ts
lines 131-162). `recState` is the external recorder's own idle/recording
state (false = idle, true = recording; the idle-XOR-recording invariant of
spec section 3 is the type). `pending` holds events the recorder has emitted
that have not yet been delivered to the bound callbacks (delivery is
asynchronous, in order). `localRecording` is the local `recording` flag of
line 135; `buttonText` is `placeButton.innerText`; the Fired counters count
callback firings; `captured` counts frames appended to the encode. -/
structure RecorderModel where
  recState : Bool
  pending : List RecEvent
  localRecording : Bool
  buttonText : String
  onStartFired : Nat
  onCompleteFired : Nat
  captured : Nat
deriving DecidableEq

/-- Modelled from the spec: `recorder.start()` of the external
`@zappar/video-recorder` package (spec section 4.4): a no-op when already
recording; otherwise the session transitions to recording and `onStart` is
emitted. -/
def recorderStart (m : RecorderModel) : RecorderModel :=
  if m.recState then m
  else { m with recState := true, pending := m.pending ++ [ RecEvent.onStartEv ] }

/-- Modelled from the spec: `recorder.stop()` of the external
`@zappar/video-recorder` package (spec section 4.4): a no-op when idle;
otherwise the session is finalized and `onComplete` is emitted. -/
def recorderStop (m : RecorderModel) : RecorderModel :=
  if m.recState then
    { m with recState := false, pending := m.pending ++ [ RecEvent.onCompleteEv ] }
  else m

/-- The click handler (src/index.ts lines 155-161): consult the local
`recording` flag; call `recorder.stop()` if it is set, `recorder.start()`
otherwise. The flag itself is not written here. -/
def click (m : RecorderModel) : RecorderModel :=
  if m.localRecording then recorderStop m else recorderStart m

/-- Asynchronous delivery of the oldest pending recorder event to the
callbacks bound at src/index.ts lines 138-152: `onStart` sets the local
`recording` flag and the stop-prompt text; `onComplete` restores the
start-prompt text, shares the result, and clears the flag. -/
def deliverOne (m : RecorderModel) : RecorderModel :=
  match m.pending with
  | [] => m
  | RecEvent.onStartEv :: rest =>
      { m with pending := rest, localRecording := true,
               buttonText := "TAP TO STOP RECORDING",
               onStartFired := m.onStartFired + 1 }
  | RecEvent.onCompleteEv :: rest =>
      { m with pending := rest, localRecording := false,
               buttonText := "TAP TO START RECORDING",
               onCompleteFired := m.onCompleteFired + 1 }

/-- Deliver n pending events, oldest first. -/
def deliverN : Nat → RecorderModel → RecorderModel
  | 0, m => m
  | n + 1, m => deliverN n (deliverOne m)

/-- Modelled from the spec: while recording, after a tick's draw the external
recorder samples the composite surface and appends it to the in-progress
encode (spec section 4.4). The `render` function in src/index.ts (lines
167-181) contains no recorder interaction; the sampling is this separate,
asynchronous post-draw action. -/
def recorderSample (m : RecorderModel) : RecorderModel :=
  if m.recState then { m with captured := m.captured + 1 } else m

/-- One tick of the combined system: the render loop runs its tick (the
source `render` body never reads or writes recorder state), then the
recorder, if recording, samples the drawn surface. -/
def combinedTick (p : AppState × RecorderModel) : AppState × RecorderModel :=
  (render p.1, recorderSample p.2)

def combinedTicks : Nat → AppState × RecorderModel → AppState × RecorderModel
  | 0, p => p
  | n + 1, p => combinedTicks n (combinedTick p)

/-- A recorder-subsystem state as `initRecorder` leaves it: external recorder
idle, no pending events, local flag clear. -/
def recorderInit : RecorderModel :=
  { recState := false, pending := [], localRecording := false,
    buttonText := "TAP TO START RECORDING", onStartFired := 0,
    onCompleteFired := 0, captured := 0 }

/-- A recorder-subsystem state in steady recording: external recorder
recording, onStart already delivered. -/
def recorderBusy : RecorderModel :=
  { recState := true, pending := [], localRecording := true,
    buttonText := "TAP TO STOP RECORDING", onStartFired := 1,
    onCompleteFired := 0, captured := 0 }

lemma render_overlayVisible (s : AppState) : (render s).overlayVisible = s.overlayVisible := rfl

lemma iterRender_overlayVisible (n : Nat) (s : AppState) :
    (iterRender n s).overlayVisible = s.overlayVisible := by
  induction n generalizing s with
  | zero => rfl
  | succ k ih => simp [iterRender, ih, render_overlayVisible]

lemma applyVisibilityEvent_overlayVisible (s : AppState) (e : VisibilityEvent) :
    (applyVisibilityEvent s e).overlayVisible = eventValue e := by
  cases e <;> rfl

lemma combinedTicks_fst (n : Nat) (a : AppState) (r : RecorderModel) :
    (combinedTicks n (a, r)).1 = iterRender n a := by
  induction n generalizing a r with
  | zero => rfl
  | succ k ih => simp [combinedTicks, combinedTick, iterRender, ih]

/-- Claim C1: every tick of the render loop performs exactly the four steps
updateFrame, mesh deformation, scene draw, next-tick scheduling, in that
strict order, each exactly once; moreover the geometry drawn is the one the
deformer produced this tick from the tick's tracking snapshot (deformation
after the camera-frame advance and before the draw of the same tick). -/
theorem render_tick_strict_order (s : AppState) :
    (render s).trace = s.trace ++
      [ TickStep.updateFrame, TickStep.deform, TickStep.draw, TickStep.scheduleNext ]
    ∧ (render s).drawnFrames = s.drawnFrames ++
      [ { geometry := updateFromFaceAnchorGroup s.geometry s.providerLatest,
          overlayVisible := s.overlayVisible } ]
    ∧ (render s).rafScheduled = s.rafScheduled + 1
    ∧ (render s).camFrames = s.camFrames + 1 := by
  refine ⟨?_, ?_, rfl, rfl⟩ <;>
    simp [render, updateFrame, deformGeometry, rendererRender, requestAnimationFrame]

/-- Claim C2, counterexample: with the browser compatible and camera
permission denied, the render loop has already executed a tick — `render()`
runs synchronously at module evaluation (line 184) before the permission
promise callback can run, so denial does not prevent ticking. -/
theorem render_loop_ticks_despite_denied_permission :
    (startupScenario true false).cameraCtl.deniedUIShown = true
    ∧ (startupScenario true false).cameraCtl.started = false
    ∧ (startupScenario true false).startup.ticksRun = 1 :=
  ⟨rfl, rfl, rfl⟩

/-- Claim C2, amended: declining camera permission only prevents the camera
from being started (and shows the permission-denied UI); the render loop
starts ticking during module evaluation, before and regardless of the
permission outcome. -/
theorem permission_gates_only_camera_start (granted : Bool) :
    (startupScenario true granted).cameraCtl.started = granted
    ∧ (startupScenario true granted).cameraCtl.deniedUIShown = (!granted)
    ∧ (startupScenario true granted).startup = moduleEval true
    ∧ (startupScenario true granted).startup.ticksRun = 1 := by
  cases granted <;> exact ⟨rfl, rfl, rfl, rfl⟩

/-- Claim C3: the recording session is idle or recording (the `recState`
Bool); starting twice without an intervening stop emits and fires onStart
exactly once; stopping while idle is a no-op, so onComplete fires zero
times; and a UI double-click while the start is still pending (local flag
not yet set by the onStart callback) makes the second click call start
again, which is a no-op — no double start. -/
theorem recorder_start_stop_idempotent (m : RecorderModel)
    (hrec : m.recState = false) (hloc : m.localRecording = false)
    (hpend : m.pending = []) :
    (recorderStart (recorderStart m)).pending = [ RecEvent.onStartEv ]
    ∧ (deliverN 1 (recorderStart (recorderStart m))).onStartFired = m.onStartFired + 1
    ∧ recorderStop m = m
    ∧ click (click m) = recorderStart (recorderStart m)
    ∧ (deliverN 1 (click (click m))).onStartFired = m.onStartFired + 1 := by
  have h1 : recorderStart m = { m with recState := true, pending := [ RecEvent.onStartEv ] } := by
    simp [recorderStart, hrec, hpend]
  have h2 : recorderStart (recorderStart m) = recorderStart m := by
    rw [h1]; simp [recorderStart]
  have h3 : click m = recorderStart m := by
    simp [click, hloc]
  have h4 : click (click m) = recorderStart (recorderStart m) := by
    rw [h3, h2, h1]
    simp [click, recorderStart, hloc]
  refine ⟨?_, ?_, ?_, h4, ?_⟩
  · rw [h2, h1]
  · rw [h2, h1]; simp [deliverN, deliverOne]
  · simp [recorderStop, hrec]
  · rw [h4, h2, h1]; simp [deliverN, deliverOne]

/-- Witness for claim C3 at the concrete post-initRecorder state. -/
theorem recorder_start_stop_idempotent_witness :
    (recorderStart (recorderStart recorderInit)).pending = [ RecEvent.onStartEv ]
    ∧ (deliverN 1 (recorderStart (recorderStart recorderInit))).onStartFired =
        recorderInit.onStartFired + 1
    ∧ recorderStop recorderInit = recorderInit
    ∧ click (click recorderInit) = recorderStart (recorderStart recorderInit)
    ∧ (deliverN 1 (click (click recorderInit))).onStartFired =
        recorderInit.onStartFired + 1 :=
  recorder_start_stop_idempotent recorderInit rfl rfl rfl

/-- Claim C4: the Visibility Gate is a pure last-event-wins binding — each
becameVisible immediately sets the overlay root visible, each
becameNotVisible immediately clears it, and after any event sequence
(including becameNotVisible immediately followed by becameVisible with no
intervening tick) the flag equals the value dictated by the last event. -/
theorem visibility_gate_last_event_wins (s t : AppState)
    (evs : List VisibilityEvent) (e : VisibilityEvent) :
    (applyVisibilityEvent s VisibilityEvent.becameVisible).overlayVisible = true
    ∧ (applyVisibilityEvent s VisibilityEvent.becameNotVisible).overlayVisible = false
    ∧ (runVisibilityEvents t (evs ++ [ e ])).overlayVisible = eventValue e
    ∧ (runVisibilityEvents t
        [ VisibilityEvent.becameNotVisible,
          VisibilityEvent.becameVisible ]).overlayVisible = true := by
  refine ⟨rfl, rfl, ?_, rfl⟩
  rw [runVisibilityEvents, List.foldl_append]
  exact applyVisibilityEvent_overlayVisible _ e

/-- Claim C5: mesh deformation runs on every tick unconditionally — the tick
rewrites the geometry from the last-known tracking sample whatever the face
or overlay visibility is, and the deform step is present in every tick's
trace; visibility never gates the geometry update. -/
theorem deformation_unconditional (s : AppState) (fv ov : Bool) :
    (render s).geometry = updateFromFaceAnchorGroup s.geometry s.providerLatest
    ∧ (render { s with faceVisible := fv, overlayVisible := ov }).geometry = (render s).geometry
    ∧ TickStep.deform ∈ (render { s with faceVisible := fv, overlayVisible := ov }).trace := by
  refine ⟨rfl, rfl, ?_⟩
  simp [render, updateFrame, deformGeometry, rendererRender, requestAnimationFrame]

/-- Claim C6: the Mesh Deformer is idempotent — two successive invocations
with the same LandmarkSet leave identical vertex positions (the landmark
coordinates themselves), with no drift and no change to topology or UVs. -/
theorem mesh_deformer_idempotent (g : OverlayGeometry) (lm : LandmarkSet) :
    updateFromFaceAnchorGroup (updateFromFaceAnchorGroup g lm) lm =
      updateFromFaceAnchorGroup g lm
    ∧ (updateFromFaceAnchorGroup (updateFromFaceAnchorGroup g lm) lm).positions = lm
    ∧ (updateFromFaceAnchorGroup g lm).positions = lm :=
  ⟨rfl, rfl, rfl⟩

/-- Claim C7: recording is observationally invisible to the render loop —
after any number of combined ticks the render-loop state is the same
whatever the recorder state is, and equals the loop state with no recorder
at all (the source render body performs no recorder interaction; sampling is
an asynchronous post-draw action on the recorder side only). -/
theorem recording_invisible_to_render_loop (a : AppState)
    (r1 r2 : RecorderModel) (n : Nat) :
    (combinedTicks n (a, r1)).1 = (combinedTicks n (a, r2)).1
    ∧ (combinedTicks n (a, r1)).1 = iterRender n a := by
  rw [combinedTicks_fst, combinedTicks_fst]
  exact ⟨rfl, rfl⟩

/-- Claim C8: in an incompatible browser, module evaluation shows the
blocking incompatibility UI and throws before any scene, camera, tracker,
recorder or render-loop setup, so no tick ever runs and the permission flow
never executes. -/
theorem incompatible_browser_aborts_startup :
    (moduleEval false).incompatibleUIShown = true
    ∧ (moduleEval false).threw = true
    ∧ (moduleEval false).setupPerformed = false
    ∧ (moduleEval false).loopState = none
    ∧ (moduleEval false).ticksRun = 0
    ∧ (startupScenario false true).cameraCtl = initialCameraCtl
    ∧ (startupScenario false false).cameraCtl = initialCameraCtl :=
  ⟨rfl, rfl, rfl, rfl, rfl, rfl, rfl⟩

/-- Claim C9: before any visibility event fires, the overlay is visible —
the face-anchor group starts with the default visible = true, it contains
the face mesh and sits in the scene, no startup code clears the flag, and it
stays true across any number of early ticks; the first draw includes the
overlay as visible. -/
theorem overlay_initially_visible (n : Nat) :
    initialAppState.overlayVisible = true
    ∧ (iterRender n initialAppState).overlayVisible = true
    ∧ "faceTrackerGroup" ∈ sceneChildren
    ∧ "faceMeshMesh" ∈ faceTrackerGroupChildren
    ∧ (render initialAppState).drawnFrames.map (fun f => f.overlayVisible) = [ true ] := by
  refine ⟨?_, ?_, ?_, ?_, ?_⟩
  · rfl
  · rw [iterRender_overlayVisible]; rfl
  · simp [sceneChildren]
  · simp [faceTrackerGroupChildren]
  · rfl

/-- Claim C10: the click handler's decision reads only the local `recording`
flag, which is mutated solely inside the onStart/onComplete callbacks — so a
click after start() but before onStart fires calls start() again, and a
click after stop() but before onComplete fires calls stop() again. -/
theorem click_decision_uses_callback_flag (m1 m2 : RecorderModel)
    (h1 : m1.localRecording = false) (h2 : m2.localRecording = true) :
    click m1 = recorderStart m1
    ∧ (click m1).localRecording = false
    ∧ click (click m1) = recorderStart (recorderStart m1)
    ∧ click m2 = recorderStop m2
    ∧ (click m2).localRecording = true
    ∧ click (click m2) = recorderStop (recorderStop m2) := by
  have hs1 : (recorderStart m1).localRecording = false := by
    cases hr : m1.recState <;> simp [recorderStart, hr, h1]
  have hs2 : (recorderStop m2).localRecording = true := by
    cases hr : m2.recState <;> simp [recorderStop, hr, h2]
  have ha : click m1 = recorderStart m1 := by simp [click, h1]
  have hd : click m2 = recorderStop m2 := by simp [click, h2]
  refine ⟨ha, ?_, ?_, hd, ?_, ?_⟩
  · rw [ha]; exact hs1
  · rw [ha]; simp [click, hs1]
  · rw [hd]; exact hs2
  · rw [hd]; simp [click, hs2]

/-- Witness for claim C10 at concrete idle and recording states. -/
theorem click_decision_uses_callback_flag_witness :
    click recorderInit = recorderStart recorderInit
    ∧ (click recorderInit).localRecording = false
    ∧ click (click recorderInit) = recorderStart (recorderStart recorderInit)
    ∧ click recorderBusy = recorderStop recorderBusy
    ∧ (click recorderBusy).localRecording = true
    ∧ click (click recorderBusy) = recorderStop (recorderStop recorderBusy) :=
  click_decision_uses_callback_flag recorderInit recorderBusy rfl rfl
